import Mathlib

/-!
Verification development for `src/api/extractor.py` of the
`inmuebles_sync` repository: a serverless handler that pages through the
Domus listing API with bounded exponential-backoff retry and tries to
upsert each page of records into the `inmuebles_domus` table (one row
per `codpro`, with a `sincronizado_wp` dirty flag reset to FALSE on
every write).

The embedding is shallow: the storage table is an association list from
`codpro` to its row, and the handler's two nested loops are `retryLoop`
and `pageLoop`, driven by a `World` of oracles for the environment
(configuration, network, database reachability) and recording an event
trace (fetch attempts, backoff sleeps, database operations).  The page
loop takes a fuel argument: `none` means the run needs more iterations
than the fuel allows (the source's `while` can loop as long as full
pages keep coming).

The upsert statement itself (source lines 124-134) is embedded as its
verbatim text `upsertQueryLines` together with `execStatement`: the
string contains a Python-style `#` comment line inside the SQL text
(line 132), which PostgreSQL — whose only comments are `--` and
enclosed `/* */` blocks, `#` being an operator character that cannot
begin a SET-list assignment — fails to parse.  psycopg2 passes the
string through unchanged (it only substitutes the `%s` placeholders),
so every execution of the statement raises a syntax error before
touching any row: `execStatement` returns the written table only under
the (provably false) condition that no such line is present, and
`execBatch` (the `executemany` call) therefore fails on every non-empty
batch, with the except block rolling the transaction back.
-/

namespace InmueblesSync

/-- Constant `LIMIT_PER_PAGE = 50` of the source. -/
def LIMIT_PER_PAGE : Nat := 50

/-- Constant `MAX_RETRIES = 5` of the source. -/
def MAX_RETRIES : Nat := 5

/-- Constant `RETRY_DELAY = 5` (seconds, initial backoff delay) of the source. -/
def RETRY_DELAY : Nat := 5

/-- One record of the remote API response, as the handler reads it:
`codpro` (`inm.get('codpro')`, assumed present per spec 4.2), the opaque
serialization `raw` standing for `json.dumps(inm)`, and the optional
fields `inm.get('estado')` and `inm.get('fecha_actualizacion')`. -/
structure Inm where
  codpro : String
  raw : String
  estado : Option String
  fecha_actualizacion : Option String
deriving DecidableEq

/-- One row of the `inmuebles_domus` table, minus its key:
columns `inmueble_data`, `estado_domus`, `fecha_actualizacion`,
`sincronizado_wp`. -/
structure Row where
  inmueble_data : String
  estado_domus : Option String
  fecha_actualizacion : Option String
  sincronizado_wp : Bool
deriving DecidableEq

/-- The table, keyed by `codpro` (an association list; the key column is
the table's unique ON CONFLICT target). -/
abbrev Storage := List (String × Row)

/-- The row written for a record: the VALUES tuple
`(codpro, inmueble_data, estado_domus, fecha_actualizacion, FALSE)` of the
source's query, and equally the DO UPDATE SET assignments (all three data
columns from EXCLUDED, `sincronizado_wp = FALSE`). -/
def rowOf (inm : Inm) : Row :=
  ⟨inm.raw, inm.estado, inm.fecha_actualizacion, false⟩

/-- Whether the table has a row keyed `c` (the conflict test of the
ON CONFLICT (codpro) clause). -/
def hasKey (s : Storage) (c : String) : Bool :=
  match s with
  | [] => false
  | e :: rest => (e.1 == c) || hasKey rest c

/-- The conflict action of the query on an entry: a row keyed by the
record's `codpro` gets all its columns overwritten (EXCLUDED values and
`sincronizado_wp = FALSE`); other rows are untouched. -/
def replaceWith (inm : Inm) (e : String × Row) : String × Row :=
  if e.1 = inm.codpro then (inm.codpro, rowOf inm) else e

/-- What the statement's text DESCRIBES for one record, were it parsed:
insert the VALUES row, or on a `codpro` conflict apply the DO UPDATE
action to the existing row.  This is the intended meaning the claims and
the code's own comments promise; whether an execution ever reaches it is
decided by `execStatement` below. -/
def upsertOne (s : Storage) (inm : Inm) : Storage :=
  if hasKey s inm.codpro then s.map (replaceWith inm)
  else s ++ [(inm.codpro, rowOf inm)]

/-- The verbatim text of the source's `query` string (lines 124-134),
line by line, exactly as it reaches the server: the value of the
triple-quoted literal, leading empty line and block indentation
included (the string closes only at line 134, so the `#` line, source
line 132, is part of the SQL text), and psycopg2 substitutes only the
`%s` placeholders, stripping nothing. -/
def upsertQueryLines : List String :=
  ["",
   "                INSERT INTO inmuebles_domus (codpro, inmueble_data, estado_domus, fecha_actualizacion, sincronizado_wp)",
   "                VALUES (%s, %s, %s, %s, FALSE)",
   "                ON CONFLICT (codpro) ",
   "                DO UPDATE SET ",
   "                    inmueble_data = EXCLUDED.inmueble_data,",
   "                    estado_domus = EXCLUDED.estado_domus,",
   "                    fecha_actualizacion = EXCLUDED.fecha_actualizacion,",
   "                    # Si la data cambia, marcamos como NO sincronizado para forzar la actualización en WP",
   "                    sincronizado_wp = FALSE",
   "                "]

/-- The first character of a line after its leading spaces. -/
def firstNonSpace (line : String) : Option Char :=
  (line.toList.dropWhile (fun ch => ch = ' ')).head?

/-- Whether a line of the statement begins, after indentation, with `#`.
PostgreSQL comments are `--` to end of line and enclosed `/* */` blocks
only; `#` is an operator character, so a line of the DO UPDATE SET list
beginning with `#` cannot start a column assignment and the statement
fails to parse at that token. -/
def lineStartsWithHash (line : String) : Bool :=
  firstNonSpace line == some '#'

/-- Executing the statement once (one tuple of the `executemany` call):
the server first parses the statement text; with a `#`-headed line in it
the parse raises a syntax error and no row is touched (`none`),
otherwise the ON CONFLICT upsert `upsertOne` would be applied.  For
`upsertQueryLines` the condition is provably true, so execution always
raises. -/
def execStatement (s : Storage) (inm : Inm) : Option Storage :=
  if upsertQueryLines.any lineStartsWithHash then none
  else some (upsertOne s inm)

/-- `cursor.executemany(query, inmuebles_a_insertar)`: the statement is
executed once per tuple, in list order; the first raised error aborts
the batch (`none` — the caller's except block then rolls back, so no
partial page is ever visible). -/
def execBatch (s : Storage) (recs : List Inm) : Option Storage :=
  match recs with
  | [] => some s
  | inm :: rest =>
    match execStatement s inm with
    | none => none
    | some s' => execBatch s' rest

/-- Outcome of one `requests.get` attempt, as the source's two except
clauses classify it: `ok recs` is a 2xx response whose JSON's
`inmuebles` list is `recs`; `transient` is any
`requests.exceptions.RequestException` (timeout, connection error, the
`raise_for_status` of a non-2xx status); `unexpected` is any other
exception (the bare `except Exception` branch). -/
inductive FetchOut
  | ok (records : List Inm)
  | transient
  | unexpected
deriving DecidableEq

/-- Observable side effects of a run, in order: a `requests.get` for a
page (with the value of `retries` at that attempt), a `time.sleep`, a
`psycopg2.connect` attempt, a `conn.commit`, a `conn.rollback`. -/
inductive Event
  | fetchAttempt (page attempt : Nat)
  | sleep (seconds : Nat)
  | dbConnect (page : Nat)
  | dbCommit (page : Nat)
  | dbRollback (page : Nat)
deriving DecidableEq

/-- The response bodies the handler can build (each stands for the
corresponding f-string or JSON body of the source, keeping the data
interpolated into it). -/
inductive Body
  | configError
  | parseError
  | unexpectedError (page : Nat)
  | retriesExhausted (page : Nat)
  | dbError (page : Nat)
  | success (total pages : Nat)
deriving DecidableEq

/-- Python exceptions that escape the handler uncaught:
`unboundLocalError` when `if conn:` in the except block reads a `conn`
that was never bound (the connect of the first data page raised);
`interfaceError` when `conn.rollback()` is called on the connection a
previous page already closed in its finally block. -/
inductive PyErr
  | unboundLocalError
  | interfaceError
deriving DecidableEq

/-- What the invocation runtime sees: either a returned response
dictionary `{'statusCode': ..., 'body': ...}` or an exception that
escaped the handler. -/
inductive Outcome
  | response (statusCode : Nat) (body : Body)
  | raised (e : PyErr)
deriving DecidableEq

/-- The environment of a run: configuration truthiness, the `urlparse`
block, and oracles giving the behavior of the network and of database
reachability.  `fetch p k` is the outcome of the attempt for page `p`
made while `retries = k`; `connectOk p` tells whether `psycopg2.connect`
succeeds for page `p`.  The outcome of the batch write itself is not
environmental: the statement text is fixed and `execBatch` decides it. -/
structure World where
  tokenSet : Bool
  urlSet : Bool
  parseOk : Bool
  fetch : Nat → Nat → FetchOut
  connectOk : Nat → Bool

/-- Everything a finished run yields: the outcome at the public
interface, the final state of the table, and the event trace. -/
structure RunResult where
  outcome : Outcome
  store : Storage
  events : List Event
deriving DecidableEq

/-- The inner `while retries < MAX_RETRIES and not success` loop,
called with the current `retries` value and the number of iterations the
guard still allows (`MAX_RETRIES - retries`).  A transient failure
increments `retries`, sleeps `RETRY_DELAY * 2 ** (retries - 1)` seconds
and loops; an unexpected error returns at once (fatal); running out of
allowed iterations with no success is exhaustion. -/
inductive FetchResult
  | ok (records : List Inm)
  | exhausted
  | fatal
deriving DecidableEq

def retryLoop (w : World) (page : Nat) : Nat → Nat → List Event × FetchResult
  | _, 0 => ([], .exhausted)
  | retries, remaining + 1 =>
    match w.fetch page retries with
    | .ok recs => ([.fetchAttempt page retries], .ok recs)
    | .transient =>
      let rest := retryLoop w page (retries + 1) remaining
      (.fetchAttempt page retries :: .sleep (RETRY_DELAY * 2 ^ (retries + 1 - 1)) :: rest.1,
       rest.2)
    | .unexpected => ([.fetchAttempt page retries], .fatal)

/-- The outer `while inmuebles_en_pagina == LIMIT_PER_PAGE` loop.
Arguments after the fuel mirror the Python locals: `page`, running total
`total_inmuebles_actualizados`, the table, whether the local `conn` has
ever been bound by an earlier iteration, and `inmuebles_en_pagina` from
the previous iteration (initially `LIMIT_PER_PAGE`).  A non-empty page
opens a connection and runs `execBatch`: on its (for this statement,
inevitable — see `execStatement`) error the except block rolls back and
returns the 500 database error for the page; the commit branch mirrors
the source text for a successful batch (commit, counters bumped, loop
continues) but is provably dead for this query.  A failing connect
leaves `conn` unbound or stale, so the except block itself raises.  An
empty page breaks; a non-full count ends the loop at the top; past the
loop the 200 response reports `total` and `page - 1`. -/
def pageLoop (w : World) : Nat → Nat → Nat → Storage → Bool → Nat → Option RunResult
  | 0, _, _, _, _, _ => none
  | fuel + 1, page, total, store, connBound, count =>
    if count = LIMIT_PER_PAGE then
      match retryLoop w page 0 MAX_RETRIES with
      | (evs, .fatal) => some ⟨.response 500 (.unexpectedError page), store, evs⟩
      | (evs, .exhausted) => some ⟨.response 500 (.retriesExhausted page), store, evs⟩
      | (evs, .ok recs) =>
        if 0 < recs.length then
          if w.connectOk page then
            match execBatch store recs with
            | none =>
              some ⟨.response 500 (.dbError page), store,
                    evs ++ [.dbConnect page, .dbRollback page]⟩
            | some store' =>
              match pageLoop w fuel (page + 1) (total + recs.length)
                      store' true recs.length with
              | none => none
              | some r =>
                some ⟨r.outcome, r.store,
                      evs ++ [.dbConnect page, .dbCommit page] ++ r.events⟩
          else
            some ⟨.raised (if connBound then .interfaceError else .unboundLocalError),
                  store, evs ++ [.dbConnect page]⟩
        else
          some ⟨.response 200 (.success total (page - 1)), store, evs⟩
    else
      some ⟨.response 200 (.success total (page - 1)), store, []⟩

/-- The handler: the configuration guard, the `urlparse` try block, then
the page loop started at `page = 1`, `total = 0`,
`inmuebles_en_pagina = LIMIT_PER_PAGE`, over the initial table `s0`. -/
def handler (w : World) (fuel : Nat) (s0 : Storage) : Option RunResult :=
  if !w.tokenSet || !w.urlSet then some ⟨.response 500 .configError, s0, []⟩
  else if !w.parseOk then some ⟨.response 500 .parseError, s0, []⟩
  else pageLoop w fuel 1 0 s0 false LIMIT_PER_PAGE

/-- The page of a fetch event. -/
def fetchPageOf : Event → Option Nat
  | .fetchAttempt p _ => some p
  | _ => none

/-- The pages of the fetch attempts of a trace, in order. -/
def fetchPages (evs : List Event) : List Nat :=
  evs.filterMap fetchPageOf

/-- The trace of a whole failed retry round entered at `retries = r` with
`k` iterations allowed: attempt, sleep of `RETRY_DELAY * 2 ^ r`, and so
on doubling. -/
def backoffEvents (page : Nat) : Nat → Nat → List Event
  | _, 0 => []
  | r, k + 1 =>
    .fetchAttempt page r :: .sleep (RETRY_DELAY * 2 ^ r) :: backoffEvents page (r + 1) k

/-! Concrete inputs used by the scenario theorems and the witnesses. -/

/-- A sample record. -/
def inm0 : Inm := ⟨"P0", "payload0", some "Disponible", none⟩

/-- Another sample record, with a timestamp. -/
def inm1 : Inm := ⟨"P1", "payload1", some "Disponible", some "2024-05-01"⟩

/-- A pre-existing row whose sync flag is TRUE (already synchronized). -/
def rowA : Row := ⟨"oldA", some "X", none, true⟩

/-- A one-row table keyed "A". -/
def s1 : Storage := [("A", rowA)]

/-- A record that collides with the stored key "A". -/
def inmA : Inm := ⟨"A", "newA", some "Disponible", none⟩

/-- A record with a fresh key "B". -/
def inmB : Inm := ⟨"B", "newB", none, some "2024-05-01"⟩

/-- Source of pages of sizes 50, 50, 37 (then empty), every fetch
succeeding first try and the database reachable. -/
def wC2 : World :=
  ⟨true, true, true,
   fun p _ =>
     .ok (if p ≤ 2 then List.replicate 50 inm0
          else if p = 3 then List.replicate 37 inm0 else []),
   fun _ => true⟩

/-- A world whose first page has one record and whose
`psycopg2.connect` raises. -/
def wC4 : World :=
  ⟨true, true, true, fun _ _ => .ok [inm0], fun _ => false⟩

/-- A world where every fetch attempt fails transiently. -/
def wC3w : World :=
  ⟨true, true, true, fun _ _ => .transient, fun _ => true⟩

/-- A world with the access token unset. -/
def wC6w : World :=
  ⟨false, true, true, fun _ _ => .ok [inm0], fun _ => true⟩

/-- A world whose first page is empty. -/
def wC7w : World :=
  ⟨true, true, true, fun _ _ => .ok [], fun _ => true⟩

/-- A world where every fetch attempt raises an unexpected error. -/
def wC8w : World :=
  ⟨true, true, true, fun _ _ => .unexpected, fun _ => true⟩

/-- A world whose first page has one record and whose connect raises. -/
def wC9w : World :=
  ⟨true, true, true, fun _ _ => .ok [inm1], fun _ => false⟩

/-- One full page then an empty page, database reachable. -/
def wC10w : World :=
  ⟨true, true, true,
   fun p _ => .ok (if p = 1 then List.replicate 50 inm0 else []),
   fun _ => true⟩

/-! Lemmas about the statement and the batch write. -/

theorem upsertQuery_hash_line : upsertQueryLines.any lineStartsWithHash = true := by
  decide

theorem execStatement_none (s : Storage) (inm : Inm) : execStatement s inm = none := by
  simp [execStatement, upsertQuery_hash_line]

theorem execBatch_none (s : Storage) (inm : Inm) (recs : List Inm) :
    execBatch s (inm :: recs) = none := by
  simp [execBatch, execStatement_none]

/-! Lemmas about the retry loop and the page loop. -/

theorem retryLoop_exhausted {w : World} {page : Nat} :
    ∀ (rem r : Nat), (∀ j, j < rem → w.fetch page (r + j) = .transient) →
      retryLoop w page r rem = (backoffEvents page r rem, .exhausted) := by
  intro rem
  induction rem with
  | zero => intro r _; rfl
  | succ rem' ih =>
    intro r ht
    have h0 : w.fetch page r = .transient := by simpa using ht 0 (Nat.succ_pos _)
    have hrest := ih (r + 1) (fun j hj => by
      have h := ht (j + 1) (Nat.succ_lt_succ hj)
      rw [show r + 1 + j = r + (j + 1) by omega]
      exact h)
    simp only [retryLoop]
    rw [h0]
    simp [hrest, backoffEvents]

theorem retryLoop_ok {w : World} {page : Nat} {recs : List Inm} :
    ∀ (k r rem : Nat), k < rem →
      (∀ j, j < k → w.fetch page (r + j) = .transient) →
      w.fetch page (r + k) = .ok recs →
      retryLoop w page r rem =
        (backoffEvents page r k ++ [.fetchAttempt page (r + k)], .ok recs) := by
  intro k
  induction k with
  | zero =>
    intro r rem hlt _ hs
    cases rem with
    | zero => omega
    | succ rem' =>
      have hs' : w.fetch page r = .ok recs := hs
      simp only [retryLoop]
      rw [hs']
      simp [backoffEvents]
  | succ k ih =>
    intro r rem hlt ht hs
    cases rem with
    | zero => omega
    | succ rem' =>
      have h0 : w.fetch page r = .transient := by simpa using ht 0 (Nat.succ_pos _)
      have hrec := ih (r + 1) rem' (by omega)
        (fun j hj => by
          have h := ht (j + 1) (Nat.succ_lt_succ hj)
          rw [show r + 1 + j = r + (j + 1) by omega]
          exact h)
        (by
          rw [show r + 1 + k = r + (k + 1) by omega]
          exact hs)
      simp only [retryLoop]
      rw [h0]
      simp [hrec, backoffEvents]
      rw [show r + 1 + k = r + (k + 1) by omega]

theorem retryLoop_fatal {w : World} {page : Nat} :
    ∀ (k r rem : Nat), k < rem →
      (∀ j, j < k → w.fetch page (r + j) = .transient) →
      w.fetch page (r + k) = .unexpected →
      retryLoop w page r rem =
        (backoffEvents page r k ++ [.fetchAttempt page (r + k)], .fatal) := by
  intro k
  induction k with
  | zero =>
    intro r rem hlt _ hs
    cases rem with
    | zero => omega
    | succ rem' =>
      have hs' : w.fetch page r = .unexpected := hs
      simp only [retryLoop]
      rw [hs']
      simp [backoffEvents]
  | succ k ih =>
    intro r rem hlt ht hs
    cases rem with
    | zero => omega
    | succ rem' =>
      have h0 : w.fetch page r = .transient := by simpa using ht 0 (Nat.succ_pos _)
      have hrec := ih (r + 1) rem' (by omega)
        (fun j hj => by
          have h := ht (j + 1) (Nat.succ_lt_succ hj)
          rw [show r + 1 + j = r + (j + 1) by omega]
          exact h)
        (by
          rw [show r + 1 + k = r + (k + 1) by omega]
          exact hs)
      simp only [retryLoop]
      rw [h0]
      simp [hrec, backoffEvents]
      rw [show r + 1 + k = r + (k + 1) by omega]

theorem retryLoop_first_try {w : World} {page : Nat} {recs : List Inm}
    (hf : w.fetch page 0 = .ok recs) :
    retryLoop w page 0 MAX_RETRIES = ([.fetchAttempt page 0], .ok recs) := by
  have h := retryLoop_ok 0 0 MAX_RETRIES (by decide)
    (fun j hj => absurd hj (Nat.not_lt_zero j)) hf
  simpa [backoffEvents] using h

theorem pageLoop_exhausted {w : World} {page : Nat} (fuel total : Nat) (s : Storage)
    (b : Bool) (ht : ∀ j, j < MAX_RETRIES → w.fetch page j = .transient) :
    pageLoop w (fuel + 1) page total s b LIMIT_PER_PAGE =
      some ⟨.response 500 (.retriesExhausted page), s, backoffEvents page 0 MAX_RETRIES⟩ := by
  have hr := @retryLoop_exhausted w page MAX_RETRIES 0
    (fun j hj => by simpa using ht j hj)
  simp [pageLoop, hr]

theorem pageLoop_fatal {w : World} {page : Nat} (fuel total k : Nat) (s : Storage)
    (b : Bool) (hk : k < MAX_RETRIES)
    (ht : ∀ j, j < k → w.fetch page j = .transient)
    (hu : w.fetch page k = .unexpected) :
    pageLoop w (fuel + 1) page total s b LIMIT_PER_PAGE =
      some ⟨.response 500 (.unexpectedError page), s,
            backoffEvents page 0 k ++ [.fetchAttempt page k]⟩ := by
  have hr := retryLoop_fatal k 0 MAX_RETRIES hk
    (fun j hj => by simpa using ht j hj) (by simpa using hu)
  simp at hr
  simp [pageLoop, hr]

theorem pageLoop_break {w : World} {page : Nat} (fuel total : Nat) (s : Storage)
    (b : Bool) (hf : w.fetch page 0 = .ok []) :
    pageLoop w (fuel + 1) page total s b LIMIT_PER_PAGE =
      some ⟨.response 200 (.success total (page - 1)), s, [.fetchAttempt page 0]⟩ := by
  simp [pageLoop, retryLoop_first_try hf]

theorem pageLoop_raise {w : World} {page : Nat} {recs : List Inm} (fuel total : Nat)
    (s : Storage) (b : Bool) (hf : w.fetch page 0 = .ok recs) (hn : 0 < recs.length)
    (hc : w.connectOk page = false) :
    pageLoop w (fuel + 1) page total s b LIMIT_PER_PAGE =
      some ⟨.raised (if b then .interfaceError else .unboundLocalError), s,
            [.fetchAttempt page 0, .dbConnect page]⟩ := by
  simp [pageLoop, retryLoop_first_try hf, hn, hc]

theorem pageLoop_dberror {w : World} {page : Nat} {recs : List Inm} (fuel total : Nat)
    (s : Storage) (b : Bool) (hf : w.fetch page 0 = .ok recs) (hn : 0 < recs.length)
    (hc : w.connectOk page = true) :
    pageLoop w (fuel + 1) page total s b LIMIT_PER_PAGE =
      some ⟨.response 500 (.dbError page), s,
            [.fetchAttempt page 0, .dbConnect page, .dbRollback page]⟩ := by
  have hb : execBatch s recs = none := by
    cases recs with
    | nil => simp at hn
    | cons inm rest => exact execBatch_none s inm rest
  simp [pageLoop, retryLoop_first_try hf, hn, hc, hb]

/-! Claim theorems. -/

/-- C1 at its failing input: the statement the handler executes carries
a Python-style `#` comment line inside its SQL text (`upsertQueryLines`,
source line 132), which PostgreSQL does not parse, so the batch write
raises before touching any row.  For every non-empty batch the write
returns the error and nothing is inserted or overwritten — in
particular, after the rolled-back write of a record colliding with the
stored key "A", the table still holds the old row of "A" with its sync
flag TRUE, not the claimed overwritten row with flag FALSE. -/
theorem C1_upsert_never_executes :
    upsertQueryLines.any lineStartsWithHash = true ∧
    (∀ (s : Storage) (inm : Inm) (recs : List Inm),
      execBatch s (inm :: recs) = none) ∧
    (execBatch s1 [inmA]).getD s1 = [("A", rowA)] ∧
    rowA.sincronizado_wp = true := by
  refine ⟨upsertQuery_hash_line, execBatch_none, ?_, by decide⟩
  rw [execBatch_none]
  decide

/-- C2 at its failing input: against the source returning pages of sizes
50, 50, 37 the run never reaches pages 2 and 3 and never answers 200
with 137 records over 3 pages — page 1's batch write raises the syntax
error of the statement, so the handler returns the 500 database error
for page 1 after a single page fetch, with the table unchanged. -/
theorem C2_aborts_at_first_page :
    handler wC2 5 [] =
      some ⟨.response 500 (.dbError 1), [],
            [.fetchAttempt 1 0, .dbConnect 1, .dbRollback 1]⟩ ∧
    (handler wC2 5 []).map (fun r => fetchPages r.events) = some [1] ∧
    (handler wC2 5 []).map RunResult.outcome ≠
      some (.response 200 (.success 137 3)) := by
  have h : handler wC2 5 [] =
      some ⟨.response 500 (.dbError 1), [],
            [.fetchAttempt 1 0, .dbConnect 1, .dbRollback 1]⟩ := by
    have hh : handler wC2 5 [] = pageLoop wC2 5 1 0 [] false LIMIT_PER_PAGE := rfl
    rw [hh]
    exact @pageLoop_dberror wC2 1 (List.replicate 50 inm0) 4 0 [] false rfl
      (by decide) rfl
  refine ⟨h, ?_, ?_⟩
  · rw [h]
    rfl
  · rw [h]
    decide

/-- C3: a page fetch hitting transient failures is retried after sleeping
`RETRY_DELAY * 2 ^ (k - 1)` seconds before its k-th retry (5, 10, 20, 40
seconds before retries 1..4, each attempt and sleep visible in the
trace), for at most `MAX_RETRIES = 5` attempts; if all 5 attempts fail
the run stops with the 500 response naming that page, its trace holding
the attempts for that page only, so no later page is fetched. -/
theorem C3_retry_backoff :
    (∀ (w : World) (page k : Nat) (recs : List Inm),
      k < MAX_RETRIES →
      (∀ j, j < k → w.fetch page j = .transient) →
      w.fetch page k = .ok recs →
      retryLoop w page 0 MAX_RETRIES =
        (backoffEvents page 0 k ++ [.fetchAttempt page k], .ok recs)) ∧
    (∀ (w : World) (fuel page total : Nat) (s : Storage) (b : Bool),
      (∀ j, j < MAX_RETRIES → w.fetch page j = .transient) →
      pageLoop w (fuel + 1) page total s b LIMIT_PER_PAGE =
        some ⟨.response 500 (.retriesExhausted page), s,
              backoffEvents page 0 MAX_RETRIES⟩) ∧
    (∀ page, backoffEvents page 0 MAX_RETRIES =
      [.fetchAttempt page 0, .sleep 5, .fetchAttempt page 1, .sleep 10,
       .fetchAttempt page 2, .sleep 20, .fetchAttempt page 3, .sleep 40,
       .fetchAttempt page 4, .sleep 80]) ∧
    (∀ page, fetchPages (backoffEvents page 0 MAX_RETRIES) =
      [page, page, page, page, page]) := by
  refine ⟨?_, ?_, ?_, ?_⟩
  · intro w page k recs hk ht hs
    have h := retryLoop_ok k 0 MAX_RETRIES hk (fun j hj => by simpa using ht j hj)
      (by simpa using hs)
    simpa using h
  · intro w fuel page total s b ht
    exact pageLoop_exhausted fuel total s b ht
  · intro page
    rfl
  · intro page
    rfl

/-- Witness for C3: all five attempts for page 7 fail transiently. -/
theorem C3_witness :
    pageLoop wC3w 1 7 0 [] false LIMIT_PER_PAGE =
      some ⟨.response 500 (.retriesExhausted 7), [],
            backoffEvents 7 0 MAX_RETRIES⟩ :=
  C3_retry_backoff.2.1 wC3w 0 7 0 [] false (fun _ _ => rfl)

/-- C4 at its failing input: the first page is non-empty and
`psycopg2.connect` raises (a storage connectivity failure), so the run
does not return the claimed page-scoped 500 database-error response: the
except block's `if conn:` reads the never-bound local and the
UnboundLocalError escapes the handler. -/
theorem C4_connect_crash :
    handler wC4 2 [] =
      some ⟨.raised .unboundLocalError, [], [.fetchAttempt 1 0, .dbConnect 1]⟩ ∧
    (∀ (body : Body), (Outcome.raised .unboundLocalError) ≠ .response 500 body) := by
  constructor
  · decide
  · intro body hcontra
    cases hcontra

/-- C5 at its failing input: the page write raises on every batch and
stores nothing (the statement does not parse), so although running it
twice trivially changes the table exactly as much as running it once —
not at all, the rollback restoring the prior table each time — the final
state the claim describes, a row per unique code carrying the batch's
payload, status, timestamp and flag FALSE, never exists: after the
rolled-back write of a batch that would insert key "B", the table still
has no row keyed "B". -/
theorem C5_upsert_never_lands :
    (∀ (s : Storage) (inm : Inm) (recs : List Inm),
      execBatch s (inm :: recs) = none ∧
      (execBatch s (inm :: recs)).getD s = s) ∧
    execBatch s1 [inmA, inmB] = none ∧
    hasKey ((execBatch s1 [inmA, inmB]).getD s1) inmB.codpro = false := by
  refine ⟨?_, by decide, by decide⟩
  intro s inm recs
  refine ⟨execBatch_none s inm recs, ?_⟩
  rw [execBatch_none]
  rfl

/-- C6: with the token or the connection string unset the handler returns
the 500 configuration response at once; its trace is empty, so no network
request and no storage operation was performed. -/
theorem C6_config_guard (w : World) (fuel : Nat) (s0 : Storage)
    (h : w.tokenSet = false ∨ w.urlSet = false) :
    handler w fuel s0 = some ⟨.response 500 .configError, s0, []⟩ := by
  rcases h with h | h <;> simp [handler, h]

/-- Witness for C6: the token unset. -/
theorem C6_witness :
    (wC6w.tokenSet = false ∨ wC6w.urlSet = false) ∧
    handler wC6w 3 [] = some ⟨.response 500 .configError, [], []⟩ :=
  ⟨Or.inl rfl, C6_config_guard wC6w 3 [] (Or.inl rfl)⟩

/-- C7: a source returning 0 records on page 1 yields the 200 response
with 0 records processed over 0 pages (`page` stays 1, so the body
reports `page - 1 = 0`), the table untouched and no database event in
the trace. -/
theorem C7_empty_first_page (w : World) (fuel : Nat) (s0 : Storage)
    (htok : w.tokenSet = true) (hurl : w.urlSet = true) (hpar : w.parseOk = true)
    (hf : w.fetch 1 0 = .ok []) :
    handler w (fuel + 1) s0 =
      some ⟨.response 200 (.success 0 0), s0, [.fetchAttempt 1 0]⟩ := by
  have h := @pageLoop_break w 1 fuel 0 s0 false hf
  simp [handler, htok, hurl, hpar]
  simpa using h

/-- Witness for C7. -/
theorem C7_witness :
    wC7w.fetch 1 0 = .ok [] ∧
    handler wC7w 4 [] =
      some ⟨.response 200 (.success 0 0), [], [.fetchAttempt 1 0]⟩ :=
  ⟨rfl, C7_empty_first_page wC7w 3 [] rfl rfl rfl rfl⟩

/-- C8: an unexpected (non-RequestException) error at any attempt of a
page fetch ends the whole run at once with the 500 response naming the
page; the trace ends at that attempt: no backoff sleep and no retry
follow it, and no other page is fetched. -/
theorem C8_unexpected_fatal (w : World) (fuel page total k : Nat) (s : Storage)
    (b : Bool) (hk : k < MAX_RETRIES)
    (ht : ∀ j, j < k → w.fetch page j = .transient)
    (hu : w.fetch page k = .unexpected) :
    pageLoop w (fuel + 1) page total s b LIMIT_PER_PAGE =
      some ⟨.response 500 (.unexpectedError page), s,
            backoffEvents page 0 k ++ [.fetchAttempt page k]⟩ :=
  pageLoop_fatal fuel total k s b hk ht hu

/-- Witness for C8: the very first attempt of page 2 raises the
unexpected error. -/
theorem C8_witness :
    pageLoop wC8w 3 2 0 [] false LIMIT_PER_PAGE =
      some ⟨.response 500 (.unexpectedError 2), [], [.fetchAttempt 2 0]⟩ := by
  have h := C8_unexpected_fatal wC8w 2 2 0 0 [] false (by decide)
    (fun j hj => absurd hj (Nat.not_lt_zero j)) rfl
  simpa [backoffEvents] using h

/-- C9: when `psycopg2.connect` raises for a non-empty page before the
local `conn` was ever bound (the first data page of the run), the handler
does not return a 500 response dictionary: the except and finally blocks
read the unbound locals, and the resulting UnboundLocalError escapes the
handler at its public interface. -/
theorem C9_unbound_conn (w : World) (fuel : Nat) (s0 : Storage) (recs : List Inm)
    (htok : w.tokenSet = true) (hurl : w.urlSet = true) (hpar : w.parseOk = true)
    (hf : w.fetch 1 0 = .ok recs) (hn : 0 < recs.length)
    (hc : w.connectOk 1 = false) :
    handler w (fuel + 1) s0 =
      some ⟨.raised .unboundLocalError, s0, [.fetchAttempt 1 0, .dbConnect 1]⟩ ∧
    (∀ (code : Nat) (body : Body),
      (Outcome.raised .unboundLocalError) ≠ .response code body) := by
  constructor
  · have h := pageLoop_raise fuel 0 s0 false hf hn hc
    simp [handler, htok, hurl, hpar]
    simpa using h
  · intro code body hcontra
    cases hcontra

/-- Witness for C9. -/
theorem C9_witness :
    (0 : Nat) < [inm1].length ∧
    handler wC9w 2 [] =
      some ⟨.raised .unboundLocalError, [], [.fetchAttempt 1 0, .dbConnect 1]⟩ :=
  ⟨by decide, (C9_unbound_conn wC9w 1 [] [inm1] rfl rfl rfl rfl (by decide) rfl).1⟩

/-- C10 at its failing input, k = 1: one full page then an empty page.
The run never reaches the trailing empty fetch the claim describes —
page 1's batch write raises the syntax error of the statement, so the
handler stops with the 500 database error for page 1 after a single page
fetch, and no 200 body reporting `k` pages after `k + 1` fetches is
produced. -/
theorem C10_no_trailing_fetch :
    handler wC10w 3 [] =
      some ⟨.response 500 (.dbError 1), [],
            [.fetchAttempt 1 0, .dbConnect 1, .dbRollback 1]⟩ ∧
    (handler wC10w 3 []).map (fun r => fetchPages r.events) = some [1] ∧
    (handler wC10w 3 []).map RunResult.outcome ≠
      some (.response 200 (.success (LIMIT_PER_PAGE * 1) 1)) := by
  have h : handler wC10w 3 [] =
      some ⟨.response 500 (.dbError 1), [],
            [.fetchAttempt 1 0, .dbConnect 1, .dbRollback 1]⟩ := by
    have hh : handler wC10w 3 [] = pageLoop wC10w 3 1 0 [] false LIMIT_PER_PAGE := rfl
    rw [hh]
    exact @pageLoop_dberror wC10w 1 (List.replicate 50 inm0) 2 0 [] false rfl
      (by decide) rfl
  refine ⟨h, ?_, ?_⟩
  · rw [h]
    rfl
  · rw [h]
    decide

end InmueblesSync
